import Mathlib

/-!
Verification of the gh_runner core: the webhook Gatekeeper (signature
verification, event classification, label matching, dispatch) and the
ephemeral Worker Lifecycle state machine (credential fetch, registration,
bounded execution, unconditional cleanup).

The repository ships the Lambda handler sources outside this tree, so the
Gatekeeper and Worker Lifecycle are modelled from the design specification
and from the concrete details pinned in docs/ARCHITECTURE.md and
docs/DEVELOPMENT.md (HMAC-SHA256 wire format, the 840-second execution
timeout out of the 900-second platform ceiling, the /tmp/runner-work work
root, the superset label-matching rule).
-/

set_option autoImplicit false

namespace GhRunner

/-! ### SHA-256 over byte lists (bytes as `Nat < 256`, words as `Nat < 2^32`) -/

/-- Truncate to a 32-bit word. -/
def w32 (n : Nat) : Nat := n % 4294967296

/-- Right rotation of a 32-bit word by `n` bits. -/
def rotr (n x : Nat) : Nat := w32 ((x >>> n) + (x <<< (32 - n)))

/-- Bitwise complement of a 32-bit word. -/
def compl32 (x : Nat) : Nat := 4294967295 - x

def bigSigma0 (x : Nat) : Nat := (rotr 2 x) ^^^ (rotr 13 x) ^^^ (rotr 22 x)

def bigSigma1 (x : Nat) : Nat := (rotr 6 x) ^^^ (rotr 11 x) ^^^ (rotr 25 x)

def smallSigma0 (x : Nat) : Nat := (rotr 7 x) ^^^ (rotr 18 x) ^^^ (x >>> 3)

def smallSigma1 (x : Nat) : Nat := (rotr 17 x) ^^^ (rotr 19 x) ^^^ (x >>> 10)

/-- SHA-256 round constants (FIPS 180-4, written in decimal). -/
def K : List Nat :=
  [1116352408, 1899447441, 3049323471, 3921009573, 961987163, 1508970993,
   2453635748, 2870763221, 3624381080, 310598401, 607225278, 1426881987,
   1925078388, 2162078206, 2614888103, 3248222580, 3835390401, 4022224774,
   264347078, 604807628, 770255983, 1249150122, 1555081692, 1996064986,
   2554220882, 2821834349, 2952996808, 3210313671, 3336571891, 3584528711,
   113926993, 338241895, 666307205, 773529912, 1294757372, 1396182291,
   1695183700, 1986661051, 2177026350, 2456956037, 2730485921, 2820302411,
   3259730800, 3345764771, 3516065817, 3600352804, 4094571909, 275423344,
   430227734, 506948616, 659060556, 883997877, 958139571, 1322822218,
   1537002063, 1747873779, 1955562222, 2024104815, 2227730452, 2361852424,
   2428436474, 2756734187, 3204031479, 3329325298]

/-- SHA-256 initial hash state (FIPS 180-4, written in decimal). -/
def H0 : List Nat :=
  [1779033703, 3144134277, 1013904242, 2773480762,
   1359893119, 2600822924, 528734635, 1541459225]

/-- Big-endian byte encoding of `n` into `len` bytes. -/
def toBytesBE (len : Nat) (n : Nat) : List Nat :=
  match len with
  | 0 => []
  | l + 1 => toBytesBE l (n / 256) ++ [n % 256]

/-- SHA-256 padding: append 0x80, zero bytes, then the 64-bit big-endian bit length. -/
def sha256pad (msg : List Nat) : List Nat :=
  let l := msg.length
  let z := (119 - l % 64) % 64
  msg ++ [0x80] ++ List.replicate z 0 ++ toBytesBE 8 (8 * l)

/-- Group bytes into big-endian 32-bit words. -/
def bytesToWords : List Nat → List Nat
  | a :: b :: c :: d :: rest => (a * 16777216 + b * 65536 + c * 256 + d) :: bytesToWords rest
  | _ => []

/-- One step of message-schedule extension: append the next word computed from
the words 16, 15, 7 and 2 positions back. -/
def schedStep (ws : List Nat) : List Nat :=
  let n := ws.length
  ws ++ [w32 (ws.getD (n - 16) 0 + smallSigma0 (ws.getD (n - 15) 0) +
              ws.getD (n - 7) 0 + smallSigma1 (ws.getD (n - 2) 0))]

/-- Extend the 16-word schedule by `k` further words. -/
def sched : List Nat → Nat → List Nat
  | ws, 0 => ws
  | ws, k + 1 => sched (schedStep ws) k

/-- One SHA-256 compression round on the 8-word working state. -/
def compressStep (st : List Nat) (kw : Nat × Nat) : List Nat :=
  match st with
  | [a, b, c, d, e, f, g, h] =>
    let t1 := w32 (h + bigSigma1 e + ((e &&& f) ^^^ (compl32 e &&& g)) + kw.1 + kw.2)
    let t2 := w32 (bigSigma0 a + ((a &&& b) ^^^ (a &&& c) ^^^ (b &&& c)))
    [w32 (t1 + t2), a, b, c, w32 (d + t1), e, f, g]
  | other => other

/-- Process one 64-byte block, updating the running hash state. -/
def sha256Block (st : List Nat) (block : List Nat) : List Nat :=
  let ws := sched (bytesToWords block) 48
  let fin := (K.zip ws).foldl compressStep st
  List.zipWith (fun x y => w32 (x + y)) st fin

/-- Split a byte list into 64-byte chunks (fuel-driven structural recursion). -/
def chunksGo : Nat → List Nat → List (List Nat)
  | 0, _ => []
  | _, [] => []
  | fuel + 1, l => l.take 64 :: chunksGo fuel (l.drop 64)

def chunks64 (l : List Nat) : List (List Nat) := chunksGo l.length l

/-- SHA-256 of a byte list, as the 8-word final state. -/
def sha256Words (msg : List Nat) : List Nat :=
  (chunks64 (sha256pad msg)).foldl sha256Block H0

/-- SHA-256 digest of a byte list, as 32 bytes. -/
def concatMap {α β : Type} (f : α → List β) : List α → List β
  | [] => []
  | x :: xs => f x ++ concatMap f xs

def sha256Bytes (msg : List Nat) : List Nat :=
  concatMap (toBytesBE 4) (sha256Words msg)

/-- HMAC-SHA256 over byte lists, per RFC 2104 with a 64-byte block size. -/
def hmacSha256 (key msg : List Nat) : List Nat :=
  let k0 := if key.length > 64 then sha256Bytes key else key
  let kp := k0 ++ List.replicate (64 - k0.length) 0
  let ipadded := kp.map (fun b => b ^^^ 0x36)
  let opadded := kp.map (fun b => b ^^^ 0x5c)
  sha256Bytes (opadded ++ sha256Bytes (ipadded ++ msg))

/-- Lowercase hex character for a nibble. -/
def hexChar (n : Nat) : Char :=
  if n < 10 then Char.ofNat (48 + n) else Char.ofNat (87 + n)

/-- Lowercase hexadecimal encoding of a byte list. -/
def hexEncode (bs : List Nat) : String :=
  String.mk (concatMap (fun b => [hexChar (b / 16 % 16), hexChar (b % 16)]) bs)

/-- Bytes of a string, one per character code point (payloads and secrets are ASCII). -/
def strBytes (s : String) : List Nat := s.data.map Char.toNat

/-- Lowercase hex HMAC-SHA256 digest of `payload` under `secret`, as `hexdigest()` returns it. -/
def hmacSha256Hex (secret payload : String) : String :=
  hexEncode (hmacSha256 (strBytes secret) (strBytes payload))

/-! ### Signature verification (webhook Lambda)

Modelled from the spec and docs/DEVELOPMENT.md: the expected signature is
the string `sha256=` followed by the lowercase hex HMAC-SHA256 digest of the
raw body under the shared webhook secret, compared with a constant-time
comparison (`hmac.compare_digest`). -/

/-- Modelled from the spec: constant-time string comparison in the style of
`hmac.compare_digest` — a length check followed by a fold that accumulates
character equality over the whole zipped string without early exit. -/
def compareDigest (a b : String) : Bool :=
  (a.data.length == b.data.length) &&
    (a.data.zip b.data).foldl (fun acc p => acc && (p.1 == p.2)) true

/-- Expected wire signature of `payload` under `secret`. -/
def expectedSignature (secret payload : String) : String :=
  "sha256=" ++ hmacSha256Hex secret payload

/-- Modelled from the spec: `verify_signature` of the webhook Lambda
(`lambda/webhook/index.py` is not in this tree) — compute the expected
HMAC-SHA256 signature of the raw body under the configured secret and
compare it with the supplied signature header in constant time. -/
def verify_signature (payload signature secret : String) : Bool :=
  compareDigest signature (expectedSignature secret payload)

/-! ### Structural lemmas about the digest pipeline -/

theorem foldl_and_eq {α : Type} (f : α → Bool) (l : List α) (acc : Bool) :
    l.foldl (fun a x => a && f x) acc = (acc && l.all f) := by
  induction l generalizing acc with
  | nil => simp
  | cons x xs ih => simp [List.foldl_cons, ih, Bool.and_assoc]

theorem zip_self_all_eq (l : List Char) : ((l.zip l).all fun p => p.1 == p.2) = true := by
  induction l with
  | nil => rfl
  | cons x xs ih => simp [List.zip_cons_cons, List.all_cons, ih]

theorem zip_all_eq_iff (la lb : List Char) :
    (la.length = lb.length ∧ ((la.zip lb).all fun p => p.1 == p.2) = true) ↔ la = lb := by
  induction la generalizing lb with
  | nil => cases lb <;> simp
  | cons a as ih =>
    cases lb with
    | nil => simp
    | cons b bs =>
      constructor
      · rintro ⟨hl, hall⟩
        simp only [List.zip_cons_cons, List.all_cons, Bool.and_eq_true, beq_iff_eq] at hall
        have hlen : as.length = bs.length := Nat.succ_injective (by simpa using hl)
        have hrest : as = bs := (ih bs).mp ⟨hlen, hall.2⟩
        rw [hall.1, hrest]
      · intro h
        injection h with h1 h2
        subst h1
        subst h2
        exact ⟨rfl, zip_self_all_eq (a :: as)⟩

theorem compareDigest_eq_true_iff (a b : String) : compareDigest a b = true ↔ a = b := by
  unfold compareDigest
  rw [foldl_and_eq, Bool.true_and, Bool.and_eq_true, beq_iff_eq]
  rw [zip_all_eq_iff]
  constructor
  · intro h
    exact congrArg String.mk h
  · rintro rfl
    rfl

theorem toBytesBE_length (len : Nat) : ∀ n, (toBytesBE len n).length = len := by
  induction len with
  | zero => intro n; rfl
  | succ l ih => intro n; simp [toBytesBE, ih]

theorem compressStep_length (st : List Nat) (kw : Nat × Nat) :
    (compressStep st kw).length = st.length := by
  rcases st with - | ⟨a, - | ⟨b, - | ⟨c, - | ⟨d, - | ⟨e, - | ⟨f, - | ⟨g, - | ⟨h, - | ⟨i, t⟩⟩⟩⟩⟩⟩⟩⟩⟩ <;>
    simp [compressStep]

theorem foldl_compressStep_length (l : List (Nat × Nat)) (st : List Nat) :
    (l.foldl compressStep st).length = st.length := by
  induction l generalizing st with
  | nil => rfl
  | cons x xs ih => rw [List.foldl_cons, ih, compressStep_length]

theorem sha256Block_length (st block : List Nat) :
    (sha256Block st block).length = st.length := by
  unfold sha256Block
  rw [List.length_zipWith, foldl_compressStep_length, Nat.min_self]

theorem foldl_sha256Block_length (l : List (List Nat)) (st : List Nat) :
    (l.foldl sha256Block st).length = st.length := by
  induction l generalizing st with
  | nil => rfl
  | cons x xs ih => rw [List.foldl_cons, ih, sha256Block_length]

theorem sha256Words_length (msg : List Nat) : (sha256Words msg).length = 8 := by
  unfold sha256Words
  rw [foldl_sha256Block_length]
  rfl

theorem concatMap_length {α β : Type} (f : α → List β) (k : Nat)
    (hf : ∀ a, (f a).length = k) (l : List α) :
    (concatMap f l).length = k * l.length := by
  induction l with
  | nil => simp [concatMap]
  | cons x xs ih =>
    simp [concatMap, ih, hf x, Nat.mul_succ, Nat.add_comm]

theorem sha256Bytes_length (msg : List Nat) : (sha256Bytes msg).length = 32 := by
  unfold sha256Bytes
  rw [concatMap_length (toBytesBE 4) 4 (fun a => toBytesBE_length 4 a), sha256Words_length]

theorem hexEncode_length (bs : List Nat) : (hexEncode bs).length = 2 * bs.length := by
  show (concatMap _ bs).length = 2 * bs.length
  exact concatMap_length _ 2 (fun a => by simp) bs

/-- The hex HMAC digest is always 64 characters long. -/
theorem hmacSha256Hex_length (secret payload : String) :
    (hmacSha256Hex secret payload).length = 64 := by
  unfold hmacSha256Hex
  rw [hexEncode_length]
  unfold hmacSha256
  rw [sha256Bytes_length]

theorem compareDigest_false_of_length_ne {a b : String} (h : a.length ≠ b.length) :
    compareDigest a b = false := by
  unfold compareDigest
  have hd : (a.data.length == b.data.length) = false := by
    apply beq_eq_false_iff_ne.mpr
    exact h
  rw [hd, Bool.false_and]

/-! ### Gatekeeper (webhook Lambda)

Modelled from the spec: `handle(rawBody, headers) -> HttpResponse` with the
stages authenticate, classify, label match, dispatch. The envelope parser
and the asynchronous dispatch channel are external collaborators, so they
are parameters of `handle`. -/

/-- Modelled from the spec: a JobDescriptor extracted from a validated
InboundEvent. -/
structure JobDescriptor where
  job_id : Nat
  owner_repo : String
  requested_labels : List String
  lifecycle_action : String
deriving DecidableEq

/-- Modelled from the spec: an InboundEvent is an opaque byte payload plus a
detached signature header and an event-type tag; a missing header is `none`. -/
structure InboundEvent where
  rawBody : String
  eventType : Option String
  signature : Option String
deriving DecidableEq

/-- Modelled from the spec: the Gatekeeper's deployment configuration — the
signing secret as retrieved from the secret store (`none` models a
secret-retrieval failure) and this deployment's configured label set. -/
structure GatekeeperConfig where
  secret : Option String
  configuredLabels : List String
deriving DecidableEq

/-- The event-type tag of the job-queue notification (GitHub `workflow_job`). -/
def workflowJobEvent : String := "workflow_job"

/-- The lifecycle action the Gatekeeper acts on. -/
def queuedAction : String := "queued"

/-- Modelled from the spec: `should_trigger_runner` of the webhook Lambda —
a job is eligible only if `requested` is a superset of the configured label
set: every configured label must appear, case-sensitively, among the
requested labels. -/
def should_trigger_runner (configured requested : List String) : Bool :=
  configured.all fun l => requested.contains l

/-- Outcome of one attempt on the asynchronous dispatch channel. -/
inductive DispatchOutcome
  | ok
  | failed
deriving DecidableEq

/-- The Gatekeeper's observable result: the HTTP status code and the list of
dispatch attempts it made, in order. -/
structure GateResult where
  status : Nat
  dispatched : List JobDescriptor
deriving DecidableEq

/-- Modelled from the spec: the Gatekeeper `handle(rawBody, headers)`.
Authenticate (constant-time HMAC check, rejecting on missing header or
secret-retrieval failure), classify (non-`workflow_job` or non-`queued`
events are acknowledged with 200 and dropped), label match (superset rule),
then dispatch asynchronously, surfacing a dispatch failure as 500 with no
internal retry. -/
def handle (parse : String → Option JobDescriptor)
    (dispatch : JobDescriptor → DispatchOutcome)
    (cfg : GatekeeperConfig) (ev : InboundEvent) : GateResult :=
  match cfg.secret, ev.signature with
  | none, _ => { status := 401, dispatched := [] }
  | some _, none => { status := 401, dispatched := [] }
  | some sec, some sig =>
    if verify_signature ev.rawBody sig sec then
      if ev.eventType = some workflowJobEvent then
        match parse ev.rawBody with
        | none => { status := 200, dispatched := [] }
        | some jd =>
          if jd.lifecycle_action = queuedAction then
            if should_trigger_runner cfg.configuredLabels jd.requested_labels then
              match dispatch jd with
              | .ok => { status := 200, dispatched := [jd] }
              | .failed => { status := 500, dispatched := [jd] }
            else { status := 200, dispatched := [] }
          else { status := 200, dispatched := [] }
      else { status := 200, dispatched := [] }
    else { status := 401, dispatched := [] }

/-- Sequential processing of a stream of inbound events: the Gatekeeper holds
no state between requests, so each event is handled independently and the
dispatch attempts concatenate. -/
def handleAll (parse : String → Option JobDescriptor)
    (dispatch : JobDescriptor → DispatchOutcome)
    (cfg : GatekeeperConfig) : List InboundEvent → List JobDescriptor
  | [] => []
  | ev :: rest => (handle parse dispatch cfg ev).dispatched ++ handleAll parse dispatch cfg rest

theorem should_trigger_runner_iff (c r : List String) :
    should_trigger_runner c r = true ↔ ∀ l ∈ c, l ∈ r := by
  unfold should_trigger_runner
  rw [List.all_eq_true]
  constructor
  · intro h l hl
    exact List.elem_iff.mp (h l hl)
  · intro h l hl
    exact List.elem_iff.mpr (h l hl)

/-! ### Worker Lifecycle (runner Lambda)

Modelled from the spec: the terminal-on-every-path state machine
START → CREDENTIAL_FETCH → REGISTER → EXECUTE → REPORT → CLEANUP → EXIT,
with the numeric timing policy and the work-root path pinned by
docs/ARCHITECTURE.md (900-second platform ceiling, 840-second execution
timeout leaving one minute for cleanup, runner copied to /tmp/runner-work). -/

/-- Lambda's hard execution ceiling, in seconds (docs/ARCHITECTURE.md: Timeout 900 seconds). -/
def platform_execution_ceiling : Nat := 900

/-- Safety margin reserved for cleanup, in seconds (docs/ARCHITECTURE.md: leaving 1 minute). -/
def fixed_safety_margin : Nat := 60

/-- Execution deadline relative to invocation start: ceiling minus margin. -/
def execution_timeout : Nat := platform_execution_ceiling - fixed_safety_margin

/-- The writable work root (docs/ARCHITECTURE.md: runner copied from
/opt/actions-runner to /tmp/runner-work). -/
def work_root : String := "/tmp/runner-work"

/-- Modelled from the spec: the WorkerSession created when REGISTER succeeds. -/
structure WorkerSession where
  job_id : Nat
  registration_token : String
  work_root : String
  deadline : Nat
deriving DecidableEq

/-- Session construction for one invocation: the work root is the fixed
writable path and the deadline is the execution timeout. -/
def mkSession (job_id : Nat) (token : String) : WorkerSession :=
  { job_id := job_id, registration_token := token, work_root := work_root,
    deadline := execution_timeout }

/-- States of the Worker Lifecycle state machine. -/
inductive LifecycleState
  | START
  | CREDENTIAL_FETCH
  | REGISTER
  | EXECUTE
  | REPORT
  | CLEANUP
  | EXIT
deriving DecidableEq

/-- Terminal outcome of one Worker Lifecycle invocation. -/
inductive FinalState
  | completed
  | credentialFailure (reason : String)
  | registrationFailure (reason : String)
  | executionTimeout
  | executionError (reason : String)
deriving DecidableEq

/-- Structured log records written to the log sink. -/
inductive LogRecord
  | executionTimeoutRecord
  | terminalState (fs : FinalState)
deriving DecidableEq

/-- Modelled from the spec: the opaque execution process, with its observable
behaviour — it completes at some time, raises at some time, or never exits. -/
inductive ExecProc
  | completesAt (t : Nat)
  | raisesAt (t : Nat) (reason : String)
  | hangs
deriving DecidableEq

/-- Whether the execution process exits (completes or raises) by the deadline. -/
def exitsBy (proc : ExecProc) (deadline : Nat) : Bool :=
  match proc with
  | .completesAt t => decide (t ≤ deadline)
  | .raisesAt t _ => decide (t ≤ deadline)
  | .hangs => false

/-- Observable result of blocking on the execution process until it reports
completion or the deadline elapses. -/
inductive ExecResult
  | completed
  | timedOut
  | raised (reason : String)
deriving DecidableEq

/-- Modelled from the spec: EXECUTE blocks until the process reports
completion or `deadline` elapses; a process still running at the deadline is
observed as timed out. -/
def runExec (proc : ExecProc) (deadline : Nat) : ExecResult :=
  match proc with
  | .hangs => .timedOut
  | .completesAt t => if t ≤ deadline then .completed else .timedOut
  | .raisesAt t r => if t ≤ deadline then .raised r else .timedOut

/-- Modelled from the spec: the environment one invocation runs against — the
job identity it was dispatched with, the secret store's answer for the
long-lived credential, the upstream job system's answer to the
registration-token exchange, and the execution process's behaviour. -/
structure LifecycleEnv where
  job_id : Nat
  credFetch : Except String String
  register : String → Except String String
  execProc : ExecProc

/-- Observable outcome of the body of one invocation, before CLEANUP runs:
the recorded final state, the states entered so far in order, whether the
work root exists and a spawned child process is still alive at that point,
whether the execution process was forcibly terminated, and the structured
records logged so far. -/
structure BodyOutcome where
  finalState : FinalState
  trace : List LifecycleState
  workRootExists : Bool
  childProcessAlive : Bool
  forcedKill : Bool
  logged : List LogRecord
deriving DecidableEq

/-- Observable outcome of one whole invocation. -/
structure InvocationResult where
  finalState : FinalState
  trace : List LifecycleState
  cleanupRuns : Nat
  workRootExists : Bool
  childProcessAlive : Bool
  forcedKill : Bool
  logged : List LogRecord
deriving DecidableEq

/-- Modelled from the spec: the invocation body. CREDENTIAL_FETCH failure and
REGISTER failure are fatal and terminal with a recorded reason; on REGISTER
success a WorkerSession is created, the environment is staged into the work
root, and EXECUTE blocks until completion or the session deadline. A timeout
forcibly terminates the process and logs an ExecutionTimeout record in
REPORT; an exception during EXECUTE leaves the work root and the child
process behind for CLEANUP. -/
def runBody (env : LifecycleEnv) : BodyOutcome :=
  match env.credFetch with
  | .error r =>
    { finalState := .credentialFailure r
      trace := [.START, .CREDENTIAL_FETCH]
      workRootExists := false, childProcessAlive := false, forcedKill := false
      logged := [] }
  | .ok cred =>
    match env.register cred with
    | .error r =>
      { finalState := .registrationFailure r
        trace := [.START, .CREDENTIAL_FETCH, .REGISTER]
        workRootExists := false, childProcessAlive := false, forcedKill := false
        logged := [] }
    | .ok tok =>
      match runExec env.execProc (mkSession env.job_id tok).deadline with
      | .completed =>
        { finalState := .completed
          trace := [.START, .CREDENTIAL_FETCH, .REGISTER, .EXECUTE, .REPORT]
          workRootExists := true, childProcessAlive := false, forcedKill := false
          logged := [] }
      | .timedOut =>
        { finalState := .executionTimeout
          trace := [.START, .CREDENTIAL_FETCH, .REGISTER, .EXECUTE, .REPORT]
          workRootExists := true, childProcessAlive := false, forcedKill := true
          logged := [.executionTimeoutRecord] }
      | .raised r =>
        { finalState := .executionError r
          trace := [.START, .CREDENTIAL_FETCH, .REGISTER, .EXECUTE]
          workRootExists := true, childProcessAlive := true, forcedKill := false
          logged := [] }

/-- Modelled from the spec: CLEANUP with scoped-resource semantics —
unconditionally remove the work root and any spawned child processes, then
exit, writing the one terminal-state record per invocation. -/
def cleanup (b : BodyOutcome) : InvocationResult :=
  { finalState := b.finalState
    trace := b.trace ++ [.CLEANUP, .EXIT]
    cleanupRuns := 1
    workRootExists := false
    childProcessAlive := false
    forcedKill := b.forcedKill
    logged := b.logged ++ [.terminalState b.finalState] }

/-- Modelled from the spec: one Worker Lifecycle invocation — the body runs,
and CLEANUP is guaranteed on every exit path, including abnormal ones. -/
def runLifecycle (env : LifecycleEnv) : InvocationResult :=
  cleanup (runBody env)

/-! ### Filesystem model for warm reuse of the compute unit -/

/-- A filesystem as the list of paths of existing files. -/
abbrev FileSystem := List String

/-- Whether path `p` lies under root `root` (character-wise path comparison). -/
def pathUnderRoot (root p : String) : Bool :=
  root.data.isPrefixOf p.data

/-- Modelled from the spec: the filesystem effect of one invocation on a
(possibly warm-reused) compute unit — staging and execution create `created`
(files under the work root) on top of the inherited filesystem, and CLEANUP
then removes everything under the work root. -/
def runInvocationFS (created : List String) (fs : FileSystem) : FileSystem :=
  (fs ++ created).filter fun p => !(pathUnderRoot work_root p)

/-! ### Concrete fixtures (the signature test vector of docs/DEVELOPMENT.md) -/

def secret0 : String := "my-webhook-secret"

def payload0 : String := "\x7b\"action\":\"queued\",\"workflow_job\":\x7b\x7d\x7d"

/-- The valid wire signature of `payload0` under `secret0`. -/
def sig0 : String := "sha256=472aeea10ffb9eeb8bdc0891c88eaa1c1d4f788da8e8c9183bb125f89d441452"

def jd0 : JobDescriptor :=
  { job_id := 123, owner_repo := "owner/repo",
    requested_labels := ["self-hosted", "lambda-runner"], lifecycle_action := "queued" }

def parse0 : String → Option JobDescriptor := fun _ => some jd0

def dispatchOk : JobDescriptor → DispatchOutcome := fun _ => .ok

def dispatchFail : JobDescriptor → DispatchOutcome := fun _ => .failed

def cfg0 : GatekeeperConfig :=
  { secret := some secret0, configuredLabels := ["self-hosted", "lambda-runner"] }

def ev0 : InboundEvent :=
  { rawBody := payload0, eventType := some workflowJobEvent, signature := some sig0 }

def evNoSig : InboundEvent :=
  { rawBody := payload0, eventType := some workflowJobEvent, signature := none }

def evPing : InboundEvent :=
  { rawBody := payload0, eventType := some "ping", signature := some sig0 }

set_option maxRecDepth 100000 in
theorem verify0 : verify_signature payload0 sig0 secret0 = true := by decide

/-! ### Helper: the exhaustive shape of a Gatekeeper result -/

theorem handle_cases (parse : String → Option JobDescriptor)
    (dispatch : JobDescriptor → DispatchOutcome)
    (cfg : GatekeeperConfig) (ev : InboundEvent) :
    handle parse dispatch cfg ev = { status := 401, dispatched := [] }
    ∨ handle parse dispatch cfg ev = { status := 200, dispatched := [] }
    ∨ (∃ jd, dispatch jd = DispatchOutcome.ok ∧
        handle parse dispatch cfg ev = { status := 200, dispatched := [jd] })
    ∨ (∃ jd, dispatch jd = DispatchOutcome.failed ∧
        handle parse dispatch cfg ev = { status := 500, dispatched := [jd] }) := by
  unfold handle
  repeat' split
  all_goals
    first
    | exact Or.inl rfl
    | exact Or.inr (Or.inl rfl)
    | (rename_i heq; exact Or.inr (Or.inr (Or.inl ⟨_, heq, rfl⟩)))
    | (rename_i heq; exact Or.inr (Or.inr (Or.inr ⟨_, heq, rfl⟩)))

/-! ### The claims -/

/-- C1: for every inbound request whose supplied signature does not match the
HMAC of the raw body under the configured secret — including a missing
signature header and a failure to retrieve the secret — the Gatekeeper
returns HTTP 401 and performs no dispatch of the Worker Lifecycle. -/
theorem C1_invalid_signature_rejected
    (parse : String → Option JobDescriptor) (dispatch : JobDescriptor → DispatchOutcome)
    (cfg : GatekeeperConfig) (ev : InboundEvent)
    (h : cfg.secret = none ∨ ev.signature = none ∨
      ∀ sec sig, cfg.secret = some sec → ev.signature = some sig →
        verify_signature ev.rawBody sig sec = false) :
    handle parse dispatch cfg ev = { status := 401, dispatched := [] } := by
  rcases hs : cfg.secret with - | sec
  · simp [handle, hs]
  · rcases hg : ev.signature with - | sig
    · simp [handle, hs, hg]
    · rcases h with h | h | h
      · rw [hs] at h
        exact absurd h (by simp)
      · rw [hg] at h
        exact absurd h (by simp)
      · have hv := h sec sig hs hg
        simp [handle, hs, hg, hv]

/-- Witness for C1: a request with no signature header is rejected with 401
and no dispatch. -/
theorem C1_witness :
    handle parse0 dispatchOk cfg0 evNoSig = { status := 401, dispatched := [] } :=
  C1_invalid_signature_rejected parse0 dispatchOk cfg0 evNoSig (Or.inr (Or.inl rfl))

/-- C2: for every valid-signature, `workflow_job`, `queued` payload, dispatch
occurs if and only if the requested labels are a superset (case-sensitive
set containment) of the configured label set; any dispatch carries exactly
that job; and at the boundary, requesting only `self-hosted` does not match
a configuration requiring `self-hosted` and `pool-x`, partial overlap does
not dispatch, matching is case-sensitive, and a strict superset of the
configured labels does dispatch. -/
theorem C2_dispatch_iff_label_superset
    (parse : String → Option JobDescriptor) (dispatch : JobDescriptor → DispatchOutcome)
    (cfg : GatekeeperConfig) (ev : InboundEvent) (sec sig : String) (jd : JobDescriptor)
    (hsec : cfg.secret = some sec) (hsig : ev.signature = some sig)
    (hver : verify_signature ev.rawBody sig sec = true)
    (hty : ev.eventType = some workflowJobEvent)
    (hparse : parse ev.rawBody = some jd)
    (hact : jd.lifecycle_action = queuedAction) :
    ((handle parse dispatch cfg ev).dispatched ≠ [] ↔
      ∀ l ∈ cfg.configuredLabels, l ∈ jd.requested_labels)
    ∧ ((handle parse dispatch cfg ev).dispatched ≠ [] →
      (handle parse dispatch cfg ev).dispatched = [jd])
    ∧ should_trigger_runner ["self-hosted", "pool-x"] ["self-hosted"] = false
    ∧ should_trigger_runner ["self-hosted", "pool-x"] ["self-hosted", "pool-y"] = false
    ∧ should_trigger_runner ["self-hosted"] ["Self-Hosted", "lambda-runner"] = false
    ∧ should_trigger_runner ["self-hosted"] ["self-hosted", "pool-x", "extra"] = true := by
  have hred : handle parse dispatch cfg ev =
      if should_trigger_runner cfg.configuredLabels jd.requested_labels then
        (match dispatch jd with
          | .ok => { status := 200, dispatched := [jd] }
          | .failed => { status := 500, dispatched := [jd] })
      else { status := 200, dispatched := [] } := by
    simp [handle, hsec, hsig, hver, hty, hparse, hact]
  refine ⟨?_, ?_, by decide, by decide, by decide, by decide⟩
  · by_cases hm : should_trigger_runner cfg.configuredLabels jd.requested_labels = true
    · have hsup := (should_trigger_runner_iff _ _).mp hm
      rw [hred, if_pos hm]
      cases hjd : dispatch jd <;> simp [hjd] <;> exact hsup
    · have hsup : ¬ ∀ l ∈ cfg.configuredLabels, l ∈ jd.requested_labels :=
        fun hc => hm ((should_trigger_runner_iff _ _).mpr hc)
      rw [hred, if_neg hm]
      simpa using hsup
  · intro hne
    rw [hred] at hne ⊢
    by_cases hm : should_trigger_runner cfg.configuredLabels jd.requested_labels = true
    · rw [if_pos hm]
      cases hjd : dispatch jd <;> simp [hjd]
    · rw [if_neg hm] at hne
      simp at hne

/-- Witness for C2: the end-to-end matching event is dispatched exactly once
with its job descriptor. -/
theorem C2_witness : (handle parse0 dispatchOk cfg0 ev0).dispatched = [jd0] :=
  (C2_dispatch_iff_label_superset parse0 dispatchOk cfg0 ev0 secret0 sig0 jd0
      rfl rfl verify0 rfl rfl rfl).2.1
    ((C2_dispatch_iff_label_superset parse0 dispatchOk cfg0 ev0 secret0 sig0 jd0
      rfl rfl verify0 rfl rfl rfl).1.mpr (by decide))

/-- C3: every valid-signature payload whose event-type header is not the
job-queue notification, or whose embedded lifecycle action is not `queued`,
is acknowledged with HTTP 200 and no dispatch. -/
theorem C3_nonmatching_event_acknowledged
    (parse : String → Option JobDescriptor) (dispatch : JobDescriptor → DispatchOutcome)
    (cfg : GatekeeperConfig) (ev : InboundEvent) (sec sig : String)
    (hsec : cfg.secret = some sec) (hsig : ev.signature = some sig)
    (hver : verify_signature ev.rawBody sig sec = true)
    (h : ev.eventType ≠ some workflowJobEvent ∨
      ∀ jd, parse ev.rawBody = some jd → jd.lifecycle_action ≠ queuedAction) :
    handle parse dispatch cfg ev = { status := 200, dispatched := [] } := by
  rcases h with h | h
  · simp [handle, hsec, hsig, hver, h]
  · by_cases hty : ev.eventType = some workflowJobEvent
    · rcases hp : parse ev.rawBody with - | jd
      · simp [handle, hsec, hsig, hver, hty, hp]
      · have hna := h jd hp
        simp [handle, hsec, hsig, hver, hty, hp, hna]
    · simp [handle, hsec, hsig, hver, hty]

/-- Witness for C3: a validly signed `ping` event is acknowledged with 200
and not dispatched. -/
theorem C3_witness :
    handle parse0 dispatchOk cfg0 evPing = { status := 200, dispatched := [] } :=
  C3_nonmatching_event_acknowledged parse0 dispatchOk cfg0 evPing secret0 sig0
    rfl rfl verify0 (Or.inl (by decide))

/-- C4: the Gatekeeper's status codes are exactly 200, 401 and 500; a failing
dispatch on a matching queued job yields 500 with exactly one dispatch
attempt and no internal retry; and 500 arises only from a dispatch failure. -/
theorem C4_dispatch_failure_500 :
    (∀ (parse : String → Option JobDescriptor) (dispatch : JobDescriptor → DispatchOutcome)
        (cfg : GatekeeperConfig) (ev : InboundEvent),
      (handle parse dispatch cfg ev).status = 200 ∨ (handle parse dispatch cfg ev).status = 401
        ∨ (handle parse dispatch cfg ev).status = 500)
    ∧ (∀ (parse : String → Option JobDescriptor) (dispatch : JobDescriptor → DispatchOutcome)
        (cfg : GatekeeperConfig) (ev : InboundEvent) (sec sig : String) (jd : JobDescriptor),
      cfg.secret = some sec → ev.signature = some sig →
      verify_signature ev.rawBody sig sec = true → ev.eventType = some workflowJobEvent →
      parse ev.rawBody = some jd → jd.lifecycle_action = queuedAction →
      should_trigger_runner cfg.configuredLabels jd.requested_labels = true →
      dispatch jd = DispatchOutcome.failed →
      handle parse dispatch cfg ev = { status := 500, dispatched := [jd] })
    ∧ (∀ (parse : String → Option JobDescriptor) (dispatch : JobDescriptor → DispatchOutcome)
        (cfg : GatekeeperConfig) (ev : InboundEvent),
      (handle parse dispatch cfg ev).status = 500 →
      ∃ jd, (handle parse dispatch cfg ev).dispatched = [jd]
        ∧ dispatch jd = DispatchOutcome.failed) := by
  refine ⟨?_, ?_, ?_⟩
  · intro parse dispatch cfg ev
    rcases handle_cases parse dispatch cfg ev with h | h | ⟨jd, -, h⟩ | ⟨jd, -, h⟩ <;>
      rw [h] <;> simp
  · intro parse dispatch cfg ev sec sig jd hsec hsig hver hty hparse hact hmatch hfail
    simp [handle, hsec, hsig, hver, hty, hparse, hact, hmatch, hfail]
  · intro parse dispatch cfg ev h500
    rcases handle_cases parse dispatch cfg ev with h | h | ⟨jd, -, h⟩ | ⟨jd, hf, h⟩ <;>
      rw [h] at h500 ⊢
    · simp at h500
    · simp at h500
    · simp at h500
    · exact ⟨jd, rfl, hf⟩

/-- Witness for C4: a matching queued event whose dispatch call fails yields
500 with exactly one attempted dispatch. -/
theorem C4_witness :
    handle parse0 dispatchFail cfg0 ev0 = { status := 500, dispatched := [jd0] } :=
  C4_dispatch_failure_500.2.1 parse0 dispatchFail cfg0 ev0 secret0 sig0 jd0
    rfl rfl verify0 rfl rfl rfl (by decide) rfl

/-- The body of an invocation never enters CLEANUP itself. -/
theorem runBody_no_cleanup (env : LifecycleEnv) :
    (runBody env).trace.count LifecycleState.CLEANUP = 0 := by
  unfold runBody
  repeat' split
  all_goals rfl

/-- C5: for every Worker Lifecycle invocation, in whatever state it
terminates, CLEANUP runs exactly once before the invocation exits, and after
it runs the work root no longer exists and no spawned child process
remains. -/
theorem C5_cleanup_exactly_once (env : LifecycleEnv) :
    (runLifecycle env).cleanupRuns = 1
    ∧ (runLifecycle env).trace.count LifecycleState.CLEANUP = 1
    ∧ (runLifecycle env).workRootExists = false
    ∧ (runLifecycle env).childProcessAlive = false := by
  refine ⟨rfl, ?_, rfl, rfl⟩
  show ((runBody env).trace ++ [LifecycleState.CLEANUP, LifecycleState.EXIT]).count
      LifecycleState.CLEANUP = 1
  rw [List.count_append, runBody_no_cleanup]
  decide

/-- C6: the execution deadline is the platform ceiling minus the fixed safety
margin, 840 seconds; and whenever the execution process has not exited by
that deadline — on the path where EXECUTE is actually reached — the process
is forcibly terminated, a structured ExecutionTimeout record is logged, and
the invocation proceeds to CLEANUP with a handled executionTimeout terminal
state rather than hanging or raising. -/
theorem C6_execute_respects_deadline :
    execution_timeout = platform_execution_ceiling - fixed_safety_margin
    ∧ execution_timeout = 840
    ∧ (∀ (env : LifecycleEnv) (cred tok : String),
      env.credFetch = Except.ok cred → env.register cred = Except.ok tok →
      exitsBy env.execProc execution_timeout = false →
      (runLifecycle env).finalState = FinalState.executionTimeout
        ∧ (runLifecycle env).forcedKill = true
        ∧ LogRecord.executionTimeoutRecord ∈ (runLifecycle env).logged
        ∧ (runLifecycle env).trace.count LifecycleState.CLEANUP = 1
        ∧ (runLifecycle env).childProcessAlive = false) := by
  refine ⟨rfl, by decide, ?_⟩
  intro env cred tok hc hr hex
  have hrun : runExec env.execProc execution_timeout = ExecResult.timedOut := by
    cases hp : env.execProc with
    | hangs => rfl
    | completesAt t =>
      rw [hp] at hex
      unfold exitsBy at hex
      simp only [decide_eq_false_iff_not] at hex
      unfold runExec
      simp [hex]
    | raisesAt t r =>
      rw [hp] at hex
      unfold exitsBy at hex
      simp only [decide_eq_false_iff_not] at hex
      unfold runExec
      simp [hex]
  have hres : runLifecycle env =
      { finalState := .executionTimeout
        trace := [.START, .CREDENTIAL_FETCH, .REGISTER, .EXECUTE, .REPORT, .CLEANUP, .EXIT]
        cleanupRuns := 1
        workRootExists := false
        childProcessAlive := false
        forcedKill := true
        logged := [.executionTimeoutRecord, .terminalState .executionTimeout] } := by
    simp [runLifecycle, cleanup, runBody, hc, hr, mkSession, hrun]
  rw [hres]
  refine ⟨rfl, rfl, by decide, by decide, rfl⟩

def envTimeout : LifecycleEnv :=
  { job_id := 123, credFetch := Except.ok "ghp_token",
    register := fun _ => Except.ok "regtok", execProc := ExecProc.hangs }

/-- Witness for C6: a stub execution process that never exits is observed as
a forced-kill executionTimeout that still reaches CLEANUP. -/
theorem C6_witness :
    (runLifecycle envTimeout).finalState = FinalState.executionTimeout
    ∧ (runLifecycle envTimeout).forcedKill = true
    ∧ LogRecord.executionTimeoutRecord ∈ (runLifecycle envTimeout).logged
    ∧ (runLifecycle envTimeout).trace.count LifecycleState.CLEANUP = 1
    ∧ (runLifecycle envTimeout).childProcessAlive = false :=
  C6_execute_respects_deadline.2.2 envTimeout "ghp_token" "regtok" rfl rfl rfl

/-- C7: within one invocation a CREDENTIAL_FETCH or REGISTER failure is fatal
and terminal — the state machine goes straight to CLEANUP with the failure
reason recorded, no later state is entered, and the failed step is not
retried inside the invocation. -/
theorem C7_fatal_failures_terminal :
    (∀ (env : LifecycleEnv) (r : String), env.credFetch = Except.error r →
      (runLifecycle env).finalState = FinalState.credentialFailure r
      ∧ (runLifecycle env).trace = [LifecycleState.START, LifecycleState.CREDENTIAL_FETCH,
          LifecycleState.CLEANUP, LifecycleState.EXIT]
      ∧ LifecycleState.REGISTER ∉ (runLifecycle env).trace
      ∧ LifecycleState.EXECUTE ∉ (runLifecycle env).trace
      ∧ (runLifecycle env).trace.count LifecycleState.CREDENTIAL_FETCH = 1
      ∧ LogRecord.terminalState (FinalState.credentialFailure r) ∈ (runLifecycle env).logged)
    ∧ (∀ (env : LifecycleEnv) (cred r : String),
      env.credFetch = Except.ok cred → env.register cred = Except.error r →
      (runLifecycle env).finalState = FinalState.registrationFailure r
      ∧ (runLifecycle env).trace = [LifecycleState.START, LifecycleState.CREDENTIAL_FETCH,
          LifecycleState.REGISTER, LifecycleState.CLEANUP, LifecycleState.EXIT]
      ∧ LifecycleState.EXECUTE ∉ (runLifecycle env).trace
      ∧ (runLifecycle env).trace.count LifecycleState.REGISTER = 1
      ∧ LogRecord.terminalState (FinalState.registrationFailure r) ∈ (runLifecycle env).logged) := by
  constructor
  · intro env r hc
    have hres : runLifecycle env =
        { finalState := .credentialFailure r
          trace := [.START, .CREDENTIAL_FETCH, .CLEANUP, .EXIT]
          cleanupRuns := 1
          workRootExists := false
          childProcessAlive := false
          forcedKill := false
          logged := [.terminalState (.credentialFailure r)] } := by
      simp [runLifecycle, cleanup, runBody, hc]
    rw [hres]
    exact ⟨rfl, rfl, by simp, by simp, rfl, by simp⟩
  · intro env cred r hc hr
    have hres : runLifecycle env =
        { finalState := .registrationFailure r
          trace := [.START, .CREDENTIAL_FETCH, .REGISTER, .CLEANUP, .EXIT]
          cleanupRuns := 1
          workRootExists := false
          childProcessAlive := false
          forcedKill := false
          logged := [.terminalState (.registrationFailure r)] } := by
      simp [runLifecycle, cleanup, runBody, hc, hr]
    rw [hres]
    exact ⟨rfl, rfl, by simp, rfl, by simp⟩

def envCredFail : LifecycleEnv :=
  { job_id := 1, credFetch := Except.error "secret store unavailable",
    register := fun _ => Except.error "unreachable", execProc := ExecProc.completesAt 10 }

def envRegFail : LifecycleEnv :=
  { job_id := 2, credFetch := Except.ok "ghp_token",
    register := fun _ => Except.error "registration denied", execProc := ExecProc.completesAt 10 }

/-- Witness for C7: a failed credential fetch and a failed registration each
end the invocation with the recorded reason and without entering EXECUTE. -/
theorem C7_witness :
    (runLifecycle envCredFail).finalState = FinalState.credentialFailure "secret store unavailable"
    ∧ (runLifecycle envRegFail).finalState = FinalState.registrationFailure "registration denied"
    ∧ LifecycleState.EXECUTE ∉ (runLifecycle envRegFail).trace :=
  ⟨(C7_fatal_failures_terminal.1 envCredFail "secret store unavailable" rfl).1,
   (C7_fatal_failures_terminal.2 envRegFail "ghp_token" "registration denied" rfl rfl).1,
   (C7_fatal_failures_terminal.2 envRegFail "ghp_token" "registration denied" rfl rfl).2.2.1⟩

/-- C8, as stated, is false on this implementation: the work root is the
fixed path /tmp/runner-work, so two distinct invocations (here with distinct
job ids) do not have disjoint work roots. -/
theorem C8_counterexample :
    ¬ (∀ (i j : Nat) (ti tj : String), i ≠ j →
        (mkSession i ti).work_root ≠ (mkSession j tj).work_root) := by
  intro h
  exact h 1 2 "tok1" "tok2" (by decide) rfl

/-- C8 (amended): every invocation uses the same fixed work root; isolation
across invocations — including warm reuse of the compute unit — comes from
CLEANUP unconditionally deleting everything under the work root, so after
any invocation no file under the work root survives into the next one. -/
theorem C8_fresh_work_root_by_deletion :
    (∀ (i : Nat) (ti : String), (mkSession i ti).work_root = work_root)
    ∧ (∀ (created : List String) (fs : FileSystem) (p : String),
      p ∈ runInvocationFS created fs → pathUnderRoot work_root p = false) := by
  refine ⟨fun i ti => rfl, ?_⟩
  intro created fs p hp
  unfold runInvocationFS at hp
  have hm := List.mem_filter.mp hp
  simpa using hm.2

/-- Witness for C8 (amended): after an invocation that created a log file
under the work root, only paths outside the work root survive. -/
theorem C8_witness : pathUnderRoot work_root "/var/task/index.py" = false :=
  C8_fresh_work_root_by_deletion.2 ["/tmp/runner-work/work/job-1.log"]
    ["/var/task/index.py"] "/var/task/index.py" (by decide)

/-- C9: the Gatekeeper performs at most one dispatch per run, keeps no
deduplication state, and replaying the identical valid matching InboundEvent
twice produces two independent dispatches of the same job. -/
theorem C9_replay_dispatches_twice :
    (∀ (parse : String → Option JobDescriptor) (dispatch : JobDescriptor → DispatchOutcome)
        (cfg : GatekeeperConfig) (ev : InboundEvent),
      (handle parse dispatch cfg ev).dispatched.length ≤ 1)
    ∧ (∀ (parse : String → Option JobDescriptor) (dispatch : JobDescriptor → DispatchOutcome)
        (cfg : GatekeeperConfig) (ev : InboundEvent) (sec sig : String) (jd : JobDescriptor),
      cfg.secret = some sec → ev.signature = some sig →
      verify_signature ev.rawBody sig sec = true → ev.eventType = some workflowJobEvent →
      parse ev.rawBody = some jd → jd.lifecycle_action = queuedAction →
      should_trigger_runner cfg.configuredLabels jd.requested_labels = true →
      dispatch jd = DispatchOutcome.ok →
      handleAll parse dispatch cfg [ev, ev] = [jd, jd]
        ∧ handleAll parse dispatch cfg [ev, ev] =
            (handle parse dispatch cfg ev).dispatched
              ++ (handle parse dispatch cfg ev).dispatched) := by
  constructor
  · intro parse dispatch cfg ev
    rcases handle_cases parse dispatch cfg ev with h | h | ⟨jd, -, h⟩ | ⟨jd, -, h⟩ <;>
      rw [h] <;> simp
  · intro parse dispatch cfg ev sec sig jd hsec hsig hver hty hparse hact hmatch hok
    have hone : handle parse dispatch cfg ev = { status := 200, dispatched := [jd] } := by
      simp [handle, hsec, hsig, hver, hty, hparse, hact, hmatch, hok]
    constructor
    · simp [handleAll, hone]
    · simp [handleAll]

/-- Witness for C9: replaying the concrete matching event twice yields two
dispatches of the same job id. -/
theorem C9_witness : handleAll parse0 dispatchOk cfg0 [ev0, ev0] = [jd0, jd0] :=
  (C9_replay_dispatches_twice.2 parse0 dispatchOk cfg0 ev0 secret0 sig0 jd0
    rfl rfl verify0 rfl rfl rfl (by decide) rfl).1

/-- C10: the accepted wire format is exactly `sha256=` followed by the
lowercase hex HMAC-SHA256 digest of the raw body under the shared secret:
verification succeeds precisely on that string, a correct digest presented
without the `sha256=` tag is rejected, and a correct digest under a
different hash tag is rejected. -/
theorem C10_signature_wire_format :
    (∀ payload signature secret,
      verify_signature payload signature secret = true ↔
        signature = "sha256=" ++ hmacSha256Hex secret payload)
    ∧ (∀ payload secret,
      verify_signature payload (hmacSha256Hex secret payload) secret = false)
    ∧ (∀ payload secret,
      verify_signature payload ("sha1=" ++ hmacSha256Hex secret payload) secret = false) := by
  refine ⟨?_, ?_, ?_⟩
  · intro payload signature secret
    exact compareDigest_eq_true_iff signature (expectedSignature secret payload)
  · intro payload secret
    apply compareDigest_false_of_length_ne
    rw [hmacSha256Hex_length]
    show (64 : Nat) ≠ (expectedSignature secret payload).length
    unfold expectedSignature
    rw [String.length_append, hmacSha256Hex_length]
    decide
  · intro payload secret
    apply compareDigest_false_of_length_ne
    rw [String.length_append, hmacSha256Hex_length]
    show ("sha1=".length + 64 : Nat) ≠ (expectedSignature secret payload).length
    unfold expectedSignature
    rw [String.length_append, hmacSha256Hex_length]
    decide

set_option maxRecDepth 100000 in
/-- Witness for C10: the documented test vector — secret `my-webhook-secret`,
payload the queued workflow_job envelope — is accepted exactly with its
`sha256=`-tagged lowercase hex digest. -/
theorem C10_witness : verify_signature payload0 sig0 secret0 = true :=
  (C10_signature_wire_format.1 payload0 sig0 secret0).mpr (by decide)

end GhRunner
